import Mathlib

/-!
Shallow embedding of `src/zenml/integrations/aws/step_operators/aws_batch_step_operator.py`
(the AWS Batch step operator: job-definition compiler, resource/environment
mappers, job-name generator and the submit/poll engine).

Conventions of the embedding:
* Python `str` values are Lean `String`s; Python lists are Lean `List`s.
* Python dicts with a fixed key set become Lean structures; dicts used as
  ordered key/value collections become association lists `List (String × α)`
  (Python dicts preserve insertion order).
* Python `float` inputs are modelled as `ℚ`: every finite IEEE double is a
  rational number, and the only operations the source applies to them
  (`math.ceil`, `int`, equality with an integer, `str` of the resulting
  integer) are exact, so the rational model is faithful.
* pydantic model construction is modelled as an explicit validation step
  returning `Except ValidationError _`; a pydantic `ValidationError` raised
  at construction is the `.error` case.
* Logging is modelled by returning the list of emitted log messages.
-/

/-- The name of a pydantic field whose validation failed, standing for the
pydantic `ValidationError` raised at model construction time. -/
inductive ValidationError where
  | validationError (loc : String)
deriving Repr, DecidableEq

/-- An entry of the `[{"name": ..., "value": ...}]` wire format used for
`environment` and `secrets` in the AWS Batch job definition. -/
structure EnvEntry where
  name : String
  value : String
deriving Repr, DecidableEq

/-- An entry of the `resourceRequirements` wire format:
`{"value": ..., "type": ...}` with `type` one of `GPU`, `VCPU`, `MEMORY`. -/
structure ResourceRequirement where
  value : String
  type : String
deriving Repr, DecidableEq

/-- Modelled from the spec: zenml's `ResourceSettings` (outside `src/`),
per §6 of the spec: `cpu_count: Optional[float]`, `gpu_count: Optional[int]`,
`get_memory(unit) -> Optional[float]`.  `memory_mib` is the value
`get_memory(unit="MiB")` returns (the unit conversion happens inside
`get_memory`, outside `src/`); it is `none` exactly when no memory was set. -/
structure ResourceSettings where
  cpu_count : Option ℚ
  gpu_count : Option ℕ
  memory_mib : Option ℚ
deriving Repr, DecidableEq

/-- Modelled from the spec: `ResourceSettings.empty` (outside `src/`) is true
exactly when no resource field is set. -/
def ResourceSettings.empty (rs : ResourceSettings) : Bool :=
  rs.cpu_count.isNone && rs.gpu_count.isNone && rs.memory_mib.isNone

/-- Python `int()` applied to a rational: truncation toward zero. -/
def pyInt (q : ℚ) : ℤ :=
  if 0 ≤ q then ⌊q⌋ else ⌈q⌉

/-- The informational log message emitted by `map_resource_settings` when the
CPU count is converted to an integer (source line 284). -/
def cpuConversionMsg (c : ℚ) (i : ℤ) : String :=
  "AWS Batch only accepts int type cpu resource requirements. Converted "
    ++ toString c ++ " to " ++ toString i

/-- Embedding of `AWSBatchStepOperator.map_environment` (source lines
244-260): `[{"name": k, "value": v} for k, v in environment.items()]`.
The dict is an insertion-ordered association list. -/
def map_environment (environment : List (String × String)) : List EnvEntry :=
  environment.map (fun kv => { name := kv.1, value := kv.2 })

/-- Embedding of `AWSBatchStepOperator.map_resource_settings` (source lines
262-309).  Returns the list of emitted `logger.info` messages paired with the
mapped resource-requirement list.  The source appends, in order: a `VCPU`
entry with the ceiling of `cpu_count` (logging when the value changed), a
`GPU` entry, and a `MEMORY` entry with the truncated MiB amount; an empty
`ResourceSettings` maps to the empty list. -/
def map_resource_settings (rs : ResourceSettings) :
    List String × List ResourceRequirement :=
  if rs.empty then ([], [])
  else
    let cpuLogs : List String :=
      match rs.cpu_count with
      | none => []
      | some c =>
          if ((⌈c⌉ : ℤ) : ℚ) = c then [] else [cpuConversionMsg c ⌈c⌉]
    let cpuReqs : List ResourceRequirement :=
      match rs.cpu_count with
      | none => []
      | some c => [{ value := toString (⌈c⌉ : ℤ), type := "VCPU" }]
    let gpuReqs : List ResourceRequirement :=
      match rs.gpu_count with
      | none => []
      | some g => [{ value := toString g, type := "GPU" }]
    let memReqs : List ResourceRequirement :=
      match rs.memory_mib with
      | none => []
      | some m => [{ value := toString (pyInt m), type := "MEMORY" }]
    (cpuLogs, cpuReqs ++ gpuReqs ++ memReqs)

/-- Python string slicing `s[:n]`: the first `n` code points. -/
def pySlice (s : String) (n : ℕ) : String :=
  String.mk (s.data.take n)

/-- Embedding of `AWSBatchStepOperator.generate_unique_batch_job_name`
(source lines 311-326): `f"{info.pipeline.name}-{step_name}"[:55]` followed by
`-` and `random_str(4)`.  The step name is resolved externally (via the
zenml client, outside `src/`) and the random suffix is modelled as an input:
`random_str` (outside `src/`) returns a fixed-length random string. -/
def generate_unique_batch_job_name (pipeline_name step_name suffix : String) :
    String :=
  pySlice (pipeline_name ++ "-" ++ step_name) 55 ++ "-" ++ suffix

/-- Embedding of `AWSBatchJobDefinitionContainerProperties` (source lines
99-108).  All its fields are plain types, so construction cannot fail. -/
structure AWSBatchJobDefinitionContainerProperties where
  image : String
  command : List String
  jobRoleArn : String
  executionRoleArn : String
  environment : List EnvEntry
  instanceType : String
  resourceRequirements : List ResourceRequirement
  secrets : List EnvEntry
deriving Repr, DecidableEq

/-- A Python value passed where a pydantic field of type
`AWSBatchJobDefinitionContainerProperties` is expected: either an instance of
the model, or — as produced by the trailing comma on source line 346 — a
1-tuple wrapping such an instance. -/
inductive PyContainerArg where
  | model (p : AWSBatchJobDefinitionContainerProperties)
  | tuple1 (p : AWSBatchJobDefinitionContainerProperties)
deriving Repr, DecidableEq

/-- pydantic validation of a value supplied for a field of type
`AWSBatchJobDefinitionContainerProperties`: an instance passes, while a tuple
is neither an instance nor a dict, so validation fails. -/
def validateContainerArg (loc : String) (a : PyContainerArg) :
    Except ValidationError AWSBatchJobDefinitionContainerProperties :=
  match a with
  | .model p => .ok p
  | .tuple1 _ => .error (.validationError loc)

/-- Embedding of `AWSBatchJobDefinitionNodePropertiesNodeRangeProperty`
(source lines 110-115). -/
structure AWSBatchJobDefinitionNodePropertiesNodeRangeProperty where
  targetNodes : String
  container : AWSBatchJobDefinitionContainerProperties
deriving Repr, DecidableEq

/-- pydantic construction of
`AWSBatchJobDefinitionNodePropertiesNodeRangeProperty`: the `container`
field value is validated. -/
def mkNodeRangeProperty (targetNodes : String) (container : PyContainerArg) :
    Except ValidationError AWSBatchJobDefinitionNodePropertiesNodeRangeProperty := do
  let c ← validateContainerArg "nodeRangeProperties.container" container
  .ok { targetNodes := targetNodes, container := c }

/-- Embedding of `AWSBatchJobDefinitionNodeProperties` (source lines
117-124). -/
structure AWSBatchJobDefinitionNodeProperties where
  numNodes : ℕ
  mainNode : ℤ
  nodeRangeProperties : List AWSBatchJobDefinitionNodePropertiesNodeRangeProperty
deriving Repr, DecidableEq

/-- pydantic construction of `AWSBatchJobDefinitionNodeProperties`:
`numNodes` is a `PositiveInt`, so a value `< 1` fails validation; `mainNode`
defaults to `0`. -/
def mkNodeProperties (numNodes : ℕ)
    (ranges : List AWSBatchJobDefinitionNodePropertiesNodeRangeProperty) :
    Except ValidationError AWSBatchJobDefinitionNodeProperties :=
  if 1 ≤ numNodes then
    .ok { numNodes := numNodes, mainNode := 0, nodeRangeProperties := ranges }
  else
    .error (.validationError "nodeProperties.numNodes")

/-- Embedding of `AWSBatchJobDefinitionRetryStrategy` (source lines 126-142).
Each `evaluateOnExit` rule is an insertion-ordered dict of strings. -/
structure AWSBatchJobDefinitionRetryStrategy where
  attempts : ℕ
  evaluateOnExit : List (List (String × String))
deriving Repr, DecidableEq

/-- The default value of `AWSBatchJobDefinitionRetryStrategy` (source lines
128-142): 2 attempts; retry on exit code 137, retry on a `*Host EC2*`
reason, exit on anything else. -/
def defaultRetryStrategy : AWSBatchJobDefinitionRetryStrategy :=
  { attempts := 2
    evaluateOnExit :=
      [ [("onExitCode", "137"), ("action", "RETRY")]
      , [("onReason", "*Host EC2*"), ("action", "RETRY")]
      , [("onExitCode", "*"), ("action", "EXIT")] ] }

/-- Embedding of `AWSBatchJobDefinition` (source lines 144-162), as validated:
the `type` literal is one of `container`/`multinode` and the optional
sub-models hold already-validated values. -/
structure AWSBatchJobDefinition where
  jobDefinitionName : String
  type : String
  parameters : List (String × String)
  schedulingPriority : ℤ
  containerProperties : Option AWSBatchJobDefinitionContainerProperties
  nodeProperties : Option AWSBatchJobDefinitionNodeProperties
  retryStrategy : AWSBatchJobDefinitionRetryStrategy
  propagateTags : Bool
  timeout : List (String × ℤ)
  tags : List (String × String)
  platformCapabilities : String
deriving Repr, DecidableEq

/-- The keyword arguments with which `generate_job_definition` calls the
`AWSBatchJobDefinition` constructor (source lines 350-374): the job name, the
`type`, at most one of `containerProperties`/`nodeProperties`, and the
timeout; every other field is left to its default (`none` means the keyword
was not passed). -/
structure JobDefinitionKwargs where
  jobDefinitionName : String
  type : String
  containerProperties : Option PyContainerArg := none
  nodeProperties : Option AWSBatchJobDefinitionNodeProperties := none
  retryStrategy : Option AWSBatchJobDefinitionRetryStrategy := none
  timeout : List (String × ℤ)
deriving Repr, DecidableEq

/-- pydantic construction of `AWSBatchJobDefinition` from the keyword
arguments `generate_job_definition` passes: the `type` literal is checked,
the `containerProperties` value is validated (rejecting the tuple produced
by the trailing comma), omitted fields take the source's defaults
(lines 152-162). -/
def validateJobDefinition (k : JobDefinitionKwargs) :
    Except ValidationError AWSBatchJobDefinition := do
  if k.type = "container" ∨ k.type = "multinode" then
    let cp ← match k.containerProperties with
      | none => Except.ok none
      | some a => do
          let p ← validateContainerArg "containerProperties" a
          Except.ok (some p)
    Except.ok
      { jobDefinitionName := k.jobDefinitionName
        type := k.type
        parameters := []
        schedulingPriority := 0
        containerProperties := cp
        nodeProperties := k.nodeProperties
        retryStrategy := k.retryStrategy.getD defaultRetryStrategy
        propagateTags := false
        timeout := k.timeout
        tags := []
        platformCapabilities := "EC2" }
  else
    Except.error (.validationError "type")

/-- The inputs of `generate_job_definition` (source lines 328-348) after the
external collaborators have been resolved: the image (from
`info.get_image`), the entrypoint command and environment, the step's
resource settings, the operator config's roles, the step settings'
instance type / node count / timeout, and the pipeline/step names plus the
random suffix consumed by `generate_unique_batch_job_name`. -/
structure GenInputs where
  image : String
  command : List String
  environment : List (String × String)
  resource_settings : ResourceSettings
  execution_role : String
  job_role : String
  instance_type : String
  node_count : ℕ
  timeout_seconds : ℤ
  pipeline_name : String
  step_name : String
  suffix : String
deriving Repr, DecidableEq

/-- The `AWSBatchJobDefinitionContainerProperties` instance built on source
lines 338-346 (the constructor call itself, before the trailing comma wraps
it in a tuple). -/
def containerPropertiesOf (i : GenInputs) :
    AWSBatchJobDefinitionContainerProperties :=
  { executionRoleArn := i.execution_role
    jobRoleArn := i.job_role
    image := i.image
    command := i.command
    environment := map_environment i.environment
    instanceType := i.instance_type
    resourceRequirements := (map_resource_settings i.resource_settings).2
    secrets := [] }

/-- The value actually bound to `container_properties` on source lines
338-346: the trailing comma on line 346 makes it a 1-tuple containing the
constructed instance. -/
def containerArgOf (i : GenInputs) : PyContainerArg :=
  .tuple1 (containerPropertiesOf i)

/-- The job name `generate_job_definition` uses (source line 337). -/
def jobNameOf (i : GenInputs) : String :=
  generate_unique_batch_job_name i.pipeline_name i.step_name i.suffix

/-- The `targetNodes` string built on source line 362:
`','.join([str(node_index) for node_index in range(node_count)])`. -/
def targetNodesString (node_count : ℕ) : String :=
  String.intercalate "," ((List.range node_count).map (fun n => toString n))

/-- The `kwargs` dict assembled on source lines 350-367, together with the
validation performed while assembling it: the multinode branch constructs
(and pydantic-validates) the node-properties models before the final
constructor call; the inner `NodeRangeProperty` is validated first, then
`NodeProperties` with its `PositiveInt` `numNodes`. -/
def generateKwargs (i : GenInputs) :
    Except ValidationError JobDefinitionKwargs :=
  if i.node_count == 1 then
    .ok { jobDefinitionName := jobNameOf i
          type := "container"
          containerProperties := some (containerArgOf i)
          timeout := [("attemptDurationSeconds", i.timeout_seconds)] }
  else do
    let nrp ← mkNodeRangeProperty (targetNodesString i.node_count)
      (containerArgOf i)
    let np ← mkNodeProperties i.node_count [nrp]
    .ok { jobDefinitionName := jobNameOf i
          type := "multinode"
          nodeProperties := some np
          timeout := [("attemptDurationSeconds", i.timeout_seconds)] }

/-- Embedding of `AWSBatchStepOperator.generate_job_definition` (source lines
328-374): assemble the keyword arguments, then construct (and
pydantic-validate) the `AWSBatchJobDefinition`.  A `.error` value is a
pydantic `ValidationError` raised before the function returns. -/
def generate_job_definition (i : GenInputs) :
    Except ValidationError AWSBatchJobDefinition := do
  let k ← generateKwargs i
  validateJobDefinition k

/-- A network call made to the AWS Batch service by `launch` (source lines
401-453). -/
inductive BatchApiCall where
  | registerJobDefinition (name : String)
  | submitJob (jobName jobQueue jobDefinition : String)
  | describeJobs (jobIds : List String)
deriving Repr, DecidableEq

/-- A Python value at the poll loop's status comparison (source lines
443-446): the status is a `str`, the right-hand sides are one-element
`list`s. -/
inductive PyVal where
  | str (s : String)
  | list (xs : List String)
deriving Repr, DecidableEq

/-- Python `==` restricted to the values compared in the poll loop: strings
compare by contents, lists by contents, and a `str` never equals a `list`. -/
def pyEq : PyVal → PyVal → Bool
  | .str a, .str b => a == b
  | .list a, .list b => a == b
  | _, _ => false

/-- One element of a `describe_jobs` response (source lines 440-447):
`jobs[0]` with its `status` and optional `statusReason`. -/
structure DescribeJob where
  status : String
  statusReason : Option String
deriving Repr, DecidableEq

/-- The outcome of one `describe_jobs` query inside the poll loop's `try`:
either a successful response or a `botocore` `ClientError`. -/
inductive PollStep where
  | ok (d : DescribeJob)
  | clientError (msg : String)
deriving Repr, DecidableEq

/-- How one run of the poll loop (source lines 438-453) ends, given a finite
sequence of query outcomes:
`succeeded` — the `status == ['SUCCEEDED']` branch: log and `break`;
`failedJob` — the `status == ['FAILED']` branch: raise
`RuntimeError(f'Job {job_id} failed: {status_reason}')` with the reason
defaulting to `'Unknown'` (the spec's `JobExecutionError`);
`raisedClientError` — a `ClientError` is logged and re-raised;
`stillPolling` — the supplied responses are exhausted with the loop still
sleeping and re-polling. -/
inductive PollOutcome where
  | succeeded
  | failedJob (jobId reason : String)
  | raisedClientError (msg : String)
  | stillPolling
deriving Repr, DecidableEq

/-- Embedding of the poll loop of `AWSBatchStepOperator.launch` (source lines
438-453), driven by a finite sequence of `describe_jobs` query outcomes.
Returns the `describeJobs` calls made and how the loop ended.  The branch
conditions are the source's literal comparisons of the status string against
the one-element lists `['SUCCEEDED']` and `['FAILED']`. -/
def pollTrace (jobId : String) :
    List PollStep → List BatchApiCall × PollOutcome
  | [] => ([], .stillPolling)
  | .clientError m :: _ => ([.describeJobs [jobId]], .raisedClientError m)
  | .ok d :: rest =>
      if pyEq (.str d.status) (.list ["SUCCEEDED"]) then
        ([.describeJobs [jobId]], .succeeded)
      else if pyEq (.str d.status) (.list ["FAILED"]) then
        ([.describeJobs [jobId]],
         .failedJob jobId (d.statusReason.getD "Unknown"))
      else
        let t := pollTrace jobId rest
        (.describeJobs [jobId] :: t.1, t.2)

/-- The outcome of the poll loop alone. -/
def pollLoop (jobId : String) (steps : List PollStep) : PollOutcome :=
  (pollTrace jobId steps).2

/-- The sequence of AWS Batch API calls `launch` (source lines 401-453)
makes: `generate_job_definition` runs first (line 420, before the boto3
client is even created on line 422); if it raises, no call is made.
Otherwise the definition is registered, the job submitted (`jobId` is the id
the service returns), and the poll loop issues one `describe_jobs` call per
iteration. -/
def launchApiCalls (i : GenInputs) (jobQueue jobId : String)
    (steps : List PollStep) : List BatchApiCall :=
  match generate_job_definition i with
  | .error _ => []
  | .ok jd =>
      [.registerJobDefinition jd.jobDefinitionName,
       .submitJob jd.jobDefinitionName jobQueue jd.jobDefinitionName]
      ++ (pollTrace jobId steps).1

/-- A concrete set of compiler inputs used to instantiate the universally
quantified theorems below. -/
def sampleInputs (n : ℕ) : GenInputs :=
  { image := "img"
    command := ["python", "run.py"]
    environment := [("A", "1")]
    resource_settings := { cpu_count := none, gpu_count := none, memory_mib := none }
    execution_role := "exec-arn"
    job_role := "job-arn"
    instance_type := "m5.large"
    node_count := n
    timeout_seconds := 60
    pipeline_name := "pipe"
    step_name := "step"
    suffix := "abcd" }

/-- Claim C1: the claim says that when a status query returns "succeeded" the
launch operation logs completion and returns normally, and when it returns
"failed" it fails with the job id and remote reason, these being the only two
terminal outcomes of the poll loop.  The code violates this: the loop
compares the status string against the one-element lists `['SUCCEEDED']` and
`['FAILED']` (source lines 443 and 446), and a string never equals a list, so
for every finite sequence of successful status queries — whatever the
returned statuses, including `SUCCEEDED` and `FAILED` — the loop reaches
neither terminal branch and is still sleeping and re-polling when the
responses run out. -/
theorem launch_poll_loop_never_reaches_terminal (jobId : String)
    (ds : List DescribeJob) :
    pollLoop jobId (ds.map PollStep.ok) = PollOutcome.stillPolling := by
  induction ds with
  | nil => rfl
  | cons d rest ih =>
      simp only [pollLoop, pollTrace, List.map_cons, pyEq] at ih ⊢
      exact ih

/-- Claim C2: the claim says that for node count 1 the compiled Job
Definition has type `container` with the container properties attached
directly and no node properties.  The code violates this: the trailing comma
on source line 346 binds `container_properties` to a 1-tuple, which pydantic
rejects for the `containerProperties` field, so for every input with node
count 1 the compiler raises a `ValidationError` instead of returning a
definition. -/
theorem singlenode_compile_raises_validation_error (i : GenInputs)
    (h : i.node_count = 1) :
    generate_job_definition i
      = Except.error (ValidationError.validationError "containerProperties") := by
  simp [generate_job_definition, generateKwargs, h, validateJobDefinition,
    containerArgOf, validateContainerArg, Bind.bind, Except.bind]

/-- Witness for `singlenode_compile_raises_validation_error` at concrete
inputs with node count 1. -/
theorem singlenode_compile_raises_validation_error_witness :
    generate_job_definition (sampleInputs 1)
      = Except.error (ValidationError.validationError "containerProperties") :=
  singlenode_compile_raises_validation_error (sampleInputs 1) rfl

/-- Claim C4: the claim says that for every node count `n ≥ 2` the compiled
Job Definition has type `multinode` with `numNodes = n`, `mainNode = 0` and a
single node range targeting `0..n-1`.  The code violates this for the same
reason as claim C2: the 1-tuple produced by the trailing comma on source line
346 is rejected when it is validated as the `container` field of the node
range property, so for every node count `≥ 2` the compiler raises a
`ValidationError` instead of returning a definition. -/
theorem multinode_compile_raises_validation_error (i : GenInputs)
    (h : 2 ≤ i.node_count) :
    generate_job_definition i
      = Except.error
          (ValidationError.validationError "nodeRangeProperties.container") := by
  have hne : (i.node_count == 1) = false := by
    simp only [beq_eq_false_iff_ne, ne_eq]
    omega
  simp [generate_job_definition, generateKwargs, hne, mkNodeRangeProperty,
    containerArgOf, validateContainerArg, Bind.bind, Except.bind]

/-- Witness for `multinode_compile_raises_validation_error` at concrete
inputs with node count 2. -/
theorem multinode_compile_raises_validation_error_witness :
    generate_job_definition (sampleInputs 2)
      = Except.error
          (ValidationError.validationError "nodeRangeProperties.container") :=
  multinode_compile_raises_validation_error (sampleInputs 2) (by decide)

/-- Claim C3: when the compiler is given node count 0 it fails, before any
client or network call is made, with a local validation error — the spec's
§7 taxonomy calls every local validation failure of the compiler a
`ConfigurationError`, and in the code it is the pydantic `ValidationError`
raised while the job-definition models are constructed.  Concretely the
failure raised at node count 0 is the rejection of the tuple-valued
`container` field (the node-count check `numNodes ≥ 1` would also fail, but
the container field is validated first); `launch` calls the compiler on
source line 420, before the boto3 client is created on line 422, so the
trace of AWS Batch API calls is empty. -/
theorem node_count_zero_fails_before_any_api_call (i : GenInputs)
    (h : i.node_count = 0) (jobQueue jobId : String) (steps : List PollStep) :
    generate_job_definition i
        = Except.error
            (ValidationError.validationError "nodeRangeProperties.container")
      ∧ launchApiCalls i jobQueue jobId steps = [] := by
  have hne : (i.node_count == 1) = false := by
    simp only [beq_eq_false_iff_ne, ne_eq]
    omega
  have hgen : generate_job_definition i
      = Except.error
          (ValidationError.validationError "nodeRangeProperties.container") := by
    simp [generate_job_definition, generateKwargs, hne, mkNodeRangeProperty,
      containerArgOf, validateContainerArg, Bind.bind, Except.bind]
  exact ⟨hgen, by simp [launchApiCalls, hgen]⟩

/-- Witness for `node_count_zero_fails_before_any_api_call` at concrete
inputs with node count 0. -/
theorem node_count_zero_fails_before_any_api_call_witness :
    generate_job_definition (sampleInputs 0)
        = Except.error
            (ValidationError.validationError "nodeRangeProperties.container")
      ∧ launchApiCalls (sampleInputs 0) "queue" "job-1" [] = [] :=
  node_count_zero_fails_before_any_api_call (sampleInputs 0) rfl "queue" "job-1" []

/-- Claim C5: for every resource request in which only the CPU count is set
and that count is a non-integer value `c` (no integer equals it), the
Resource Mapper emits exactly one resource-requirement entry — a `VCPU`
entry whose value is `ceil(c)` rendered as a string — and logs exactly one
informational conversion diagnostic; no error is raised (the mapper is a
total function). -/
theorem cpu_noninteger_maps_to_ceil_with_one_diagnostic (c : ℚ)
    (hni : ∀ z : ℤ, (z : ℚ) ≠ c) :
    map_resource_settings
        { cpu_count := some c, gpu_count := none, memory_mib := none }
      = ([cpuConversionMsg c ⌈c⌉],
         [{ value := toString (⌈c⌉ : ℤ), type := "VCPU" }]) := by
  simp [map_resource_settings, ResourceSettings.empty, hni ⌈c⌉]

/-- Witness for `cpu_noninteger_maps_to_ceil_with_one_diagnostic` at the
non-integer CPU count `5/2`, whose ceiling is `3`. -/
theorem cpu_noninteger_maps_to_ceil_with_one_diagnostic_witness :
    map_resource_settings
        { cpu_count := some (5/2 : ℚ), gpu_count := none, memory_mib := none }
      = ([cpuConversionMsg (5/2 : ℚ) 3],
         [{ value := "3", type := "VCPU" }]) := by
  have hni : ∀ z : ℤ, (z : ℚ) ≠ (5/2 : ℚ) := by
    intro z hz
    have h2 : ((2 * z : ℤ) : ℚ) = ((5 : ℤ) : ℚ) := by
      push_cast
      rw [hz]
      ring
    have h3 : (2 * z : ℤ) = 5 := Int.cast_injective h2
    omega
  have hc : (⌈(5/2 : ℚ)⌉ : ℤ) = 3 := by
    rw [Int.ceil_eq_iff]
    norm_num
  rw [cpu_noninteger_maps_to_ceil_with_one_diagnostic (5/2 : ℚ) hni, hc]
  rfl

/-- Length of a Python slice `s[:n]` is at most `n`. -/
theorem pySlice_length_le (s : String) (n : ℕ) : (pySlice s n).length ≤ n := by
  simp only [pySlice, String.length]
  exact (List.length_take n s.data).trans_le (min_le_left n s.data.length)

/-- Claim C6: for every pipeline name and step name, the generated job name
is the string `<pipeline>-<step>` truncated to at most 55 characters,
followed by a hyphen and the 4-character random suffix, and its total length
is at most 63 characters (it is in fact at most 60). -/
theorem job_name_shape_and_length_bound (p s sfx : String)
    (h : sfx.length = 4) :
    generate_unique_batch_job_name p s sfx
        = pySlice (p ++ "-" ++ s) 55 ++ "-" ++ sfx
      ∧ (pySlice (p ++ "-" ++ s) 55).length ≤ 55
      ∧ (generate_unique_batch_job_name p s sfx).length ≤ 63 := by
  refine ⟨rfl, pySlice_length_le _ _, ?_⟩
  have h1 := pySlice_length_le (p ++ "-" ++ s) 55
  have h2 : ("-" : String).length = 1 := rfl
  simp only [generate_unique_batch_job_name, String.length_append, h, h2]
  omega

/-- Witness for `job_name_shape_and_length_bound` at concrete names and a
concrete 4-character suffix. -/
theorem job_name_shape_and_length_bound_witness :
    generate_unique_batch_job_name "pipe" "step" "abcd"
        = pySlice ("pipe" ++ "-" ++ "step") 55 ++ "-" ++ "abcd"
      ∧ (pySlice ("pipe" ++ "-" ++ "step") 55).length ≤ 55
      ∧ (generate_unique_batch_job_name "pipe" "step" "abcd").length ≤ 63 :=
  job_name_shape_and_length_bound "pipe" "step" "abcd" rfl

/-- Claim C7: for every environment mapping, the Environment Mapper produces
one `{name, value}` pair per entry in the mapping's order, and converting the
result back to a mapping recovers the original key/value pairs with no loss;
the empty mapping yields the empty list. -/
theorem environment_roundtrip (env : List (String × String)) :
    (map_environment env).map (fun e => (e.name, e.value)) = env
      ∧ (map_environment env).length = env.length
      ∧ map_environment [] = [] := by
  refine ⟨?_, by simp [map_environment], rfl⟩
  induction env with
  | nil => rfl
  | cons kv rest ih =>
      simp [map_environment] at ih ⊢
      exact ih

/-- Two compiler results agree in every field except possibly the
`jobDefinitionName` of the assembled keyword arguments. -/
def kwargsAgreeExceptName :
    Except ValidationError JobDefinitionKwargs →
    Except ValidationError JobDefinitionKwargs → Prop
  | .error e1, .error e2 => e1 = e2
  | .ok k1, .ok k2 => k1 = { k2 with jobDefinitionName := k1.jobDefinitionName }
  | _, _ => False

/-- Two compiler results agree in every field except possibly the
`jobDefinitionName` of the validated job definition. -/
def resultsAgreeExceptName :
    Except ValidationError AWSBatchJobDefinition →
    Except ValidationError AWSBatchJobDefinition → Prop
  | .error e1, .error e2 => e1 = e2
  | .ok j1, .ok j2 => j1 = { j2 with jobDefinitionName := j1.jobDefinitionName }
  | _, _ => False

/-- Claim C8: two runs of the Job Definition Compiler on identical inputs
except the random name suffix agree in every field except the job name: both
the assembled constructor keyword arguments and the final result differ at
most in `jobDefinitionName`.  (With the current code both runs in fact raise
the identical `ValidationError` — see claims C2 and C4 — so the results are
equal outright; the keyword-argument half shows the suffix reaches no field
but the name.) -/
theorem compile_deterministic_modulo_name (i : GenInputs) (s1 s2 : String) :
    kwargsAgreeExceptName (generateKwargs { i with suffix := s1 })
        (generateKwargs { i with suffix := s2 })
      ∧ resultsAgreeExceptName (generate_job_definition { i with suffix := s1 })
        (generate_job_definition { i with suffix := s2 }) := by
  by_cases hn : (i.node_count == 1) = true
  · constructor
    · simp [generateKwargs, hn, kwargsAgreeExceptName, containerArgOf,
        containerPropertiesOf, jobNameOf]
    · simp [generate_job_definition, generateKwargs, hn, validateJobDefinition,
        containerArgOf, validateContainerArg, Bind.bind, Except.bind,
        resultsAgreeExceptName]
  · have hn' : (i.node_count == 1) = false := by simpa using hn
    constructor
    · simp [generateKwargs, hn', mkNodeRangeProperty, containerArgOf,
        validateContainerArg, Bind.bind, Except.bind, kwargsAgreeExceptName]
    · simp [generate_job_definition, generateKwargs, hn', mkNodeRangeProperty,
        containerArgOf, validateContainerArg, Bind.bind, Except.bind,
        resultsAgreeExceptName]

/-- Claim C9: the default retry strategy is 2 attempts with exactly the three
`evaluateOnExit` rules, in order: exit code `137` retries, reason
`*Host EC2*` retries, any other exit code exits; the compiler never passes a
`retryStrategy` keyword (every assembled keyword-argument record has
`retryStrategy = none`), and whenever the job-definition constructor succeeds
on arguments without a `retryStrategy`, the resulting definition carries
exactly the default strategy. -/
theorem retry_strategy_default_and_unaltered :
    defaultRetryStrategy
        = { attempts := 2
            evaluateOnExit :=
              [ [("onExitCode", "137"), ("action", "RETRY")]
              , [("onReason", "*Host EC2*"), ("action", "RETRY")]
              , [("onExitCode", "*"), ("action", "EXIT")] ] }
      ∧ (∀ i k, generateKwargs i = Except.ok k → k.retryStrategy = none)
      ∧ (∀ k jd, k.retryStrategy = none →
          validateJobDefinition k = Except.ok jd →
          jd.retryStrategy = defaultRetryStrategy) := by
  refine ⟨rfl, ?_, ?_⟩
  · intro i k hk
    by_cases hn : (i.node_count == 1) = true
    · simp [generateKwargs, hn] at hk
      simp [← hk]
    · have hn' : (i.node_count == 1) = false := by simpa using hn
      simp [generateKwargs, hn', mkNodeRangeProperty, containerArgOf,
        validateContainerArg, Bind.bind, Except.bind] at hk
  · intro k jd hnone hv
    simp only [validateJobDefinition] at hv
    split at hv
    · match hcp : k.containerProperties with
      | none =>
          simp [hcp, Bind.bind, Except.bind] at hv
          simp [← hv, hnone]
      | some a =>
          match a with
          | .model p =>
              simp [hcp, Bind.bind, Except.bind, validateContainerArg] at hv
              simp [← hv, hnone]
          | .tuple1 p =>
              simp [hcp, Bind.bind, Except.bind, validateContainerArg] at hv
    · simp at hv

/-- The keyword-argument record the compiler assembles at `sampleInputs 1`. -/
def sampleKwargs1 : JobDefinitionKwargs :=
  { jobDefinitionName := "pipe-step-abcd"
    type := "container"
    containerProperties := some (containerArgOf (sampleInputs 1))
    timeout := [("attemptDurationSeconds", 60)] }

/-- Keyword arguments, with no `retryStrategy` and an untupled container
value, on which the job-definition constructor succeeds. -/
def okKwargs : JobDefinitionKwargs :=
  { jobDefinitionName := "jd"
    type := "container"
    containerProperties := some (.model (containerPropertiesOf (sampleInputs 1)))
    timeout := [("attemptDurationSeconds", 60)] }

/-- The job definition the constructor produces from `okKwargs`. -/
def okJobDef : AWSBatchJobDefinition :=
  { jobDefinitionName := "jd"
    type := "container"
    parameters := []
    schedulingPriority := 0
    containerProperties := some (containerPropertiesOf (sampleInputs 1))
    nodeProperties := none
    retryStrategy := defaultRetryStrategy
    propagateTags := false
    timeout := [("attemptDurationSeconds", 60)]
    tags := []
    platformCapabilities := "EC2" }

/-- Witness for `retry_strategy_default_and_unaltered`: the keyword arguments
assembled at `sampleInputs 1` carry no retry strategy, and a successful
constructor run on `okKwargs` yields the default strategy. -/
theorem retry_strategy_default_and_unaltered_witness :
    sampleKwargs1.retryStrategy = none
      ∧ okJobDef.retryStrategy = defaultRetryStrategy :=
  ⟨retry_strategy_default_and_unaltered.2.1 (sampleInputs 1) sampleKwargs1 rfl,
   retry_strategy_default_and_unaltered.2.2 okKwargs okJobDef rfl rfl⟩

/-- The number of resource-requirement entries of a given wire type. -/
def countType (l : List ResourceRequirement) (t : String) : ℕ :=
  (l.filter (fun r => r.type == t)).length

/-- Claim C10: in every list the Resource Mapper produces, a set CPU count
yields exactly one entry of wire type `VCPU` (and no entry of type `CPU`
ever occurs), a set GPU count exactly one entry of type `GPU`, a set memory
amount exactly one entry of type `MEMORY`, and an unset field yields no
entry of its type — so at most one entry per type is ever emitted. -/
theorem resource_wire_types_and_multiplicity (rs : ResourceSettings) :
    countType (map_resource_settings rs).2 "VCPU"
        = (if rs.cpu_count.isSome then 1 else 0)
      ∧ countType (map_resource_settings rs).2 "GPU"
        = (if rs.gpu_count.isSome then 1 else 0)
      ∧ countType (map_resource_settings rs).2 "MEMORY"
        = (if rs.memory_mib.isSome then 1 else 0)
      ∧ countType (map_resource_settings rs).2 "CPU" = 0 := by
  obtain ⟨c, g, m⟩ := rs
  cases c <;> cases g <;> cases m <;> exact ⟨rfl, rfl, rfl, rfl⟩
